import Mathlib

/-!
# Canopy points processor — Balance-Seconds Ledger, verified model

Shallow embedding of the core of `canopy-points-processor`:

* the per-account accumulator and snapshot log of
  `src/unnamed/part_001` (`processBalanceChange`, lines 124–204), which is
  textually identical, in the embedded region, to
  `src/src/processors/multi-rewards-processor.ts` (`processStakingChange`,
  lines 99–176);
* the interpolation query engine documented in `src/unnamed/part_000`
  (`getCumulativeAt`, lines 217–248, and the average computation,
  lines 250–257);
* the identity-resolution / early-return structure of the full
  `processBalanceChange` handler of `src/unnamed/part_001` (lines 55–214).

All TypeScript `bigint` values are modelled as `Int` (arbitrary-precision,
signed, exact — as `bigint` is).  Chain event amounts are Move `u64`
values, modelled as `Nat` and cast to `Int` where the code does `bigint`
arithmetic.  TypeScript `number` counters (`totalSnapshotCount`) are
modelled as `Nat`.
-/

/-! ## Data model and accumulator (definitions) -/

/-- `SNAPSHOT_LIFETIME_SECONDS` of `src/unnamed/part_001` line 24:
`BigInt(24 * 60 * 60)`. -/
def SNAPSHOT_LIFETIME_SECONDS : Int := 24 * 60 * 60

/-- The mutable per-account fields of the `StoreBalance` entity
(schema in `src/unnamed/part_000`; `StakingBalance` has the same shape).
Identity / foreign-key string fields (`id`, `fungible_store`, `vaultID`)
are inert in the embedded logic and are kept at the store level instead. -/
structure StoreBalance where
  lastKnownBalance : Int
  lastObservationTime : Int
  cumulativeBalanceSeconds : Int
  totalSnapshotCount : Nat
deriving DecidableEq

/-- The `BalanceSnapshot` entity (schema in `src/unnamed/part_000`;
`StakingSnapshot` has the same shape).  Keyed externally by its
sequence number. -/
structure BalanceSnapshot where
  filledAt : Int
  balance : Int
  cumulativeBalanceSeconds : Int
  lastUpdateTime : Int
deriving DecidableEq

/-- One decoded balance-changing event for one account: timestamp in
seconds, the `u64` amount, and whether it is a deposit (`DEPOSIT` /
`STAKE`) or a withdrawal (`WITHDRAW` / `UNSTAKE`). -/
structure BalanceEvent where
  timestamp : Int
  amount : Nat
  isDeposit : Bool
deriving DecidableEq

/-- An account's full persisted state: its `StoreBalance` entity plus its
snapshots, keyed by sequence number (the entity id is
`{storeAddress}-{sequence}`). -/
structure AccountState where
  storeBalance : StoreBalance
  snapshots : Nat → Option BalanceSnapshot

/-- Balance update of `src/unnamed/part_001` lines 147–154: deposits add
the amount; withdrawals use
`previousBalance > amount ? previousBalance - amount : BigInt(0)`. -/
def stepBalance (previousBalance : Int) (ev : BalanceEvent) : Int :=
  if ev.isDeposit then previousBalance + (ev.amount : Int)
  else if previousBalance > (ev.amount : Int) then previousBalance - (ev.amount : Int)
  else 0

/-- Lines 172–181 of `src/unnamed/part_001`: fetch the most recent
snapshot, if any, and drop it when its age exceeds the 24-hour lifetime
(strict `>`), forcing creation of a new one. -/
def currentSnapshot (sb : StoreBalance) (snaps : Nat → Option BalanceSnapshot)
    (timestamp : Int) : Option BalanceSnapshot :=
  if sb.totalSnapshotCount > 0 then
    match snaps sb.totalSnapshotCount with
    | some s =>
        if timestamp - s.filledAt > SNAPSHOT_LIFETIME_SECONDS then none else some s
    | none => none
  else none

/-- Snapshot creation / update of `src/unnamed/part_001` lines 169–204,
acting on the post-update `StoreBalance` and the account's snapshot map.
Returns the updated `StoreBalance` (its `totalSnapshotCount` may grow)
and the snapshot map after the single `upsert`. -/
def touchSnapshot (sb : StoreBalance) (snaps : Nat → Option BalanceSnapshot)
    (timestamp : Int) : StoreBalance × (Nat → Option BalanceSnapshot) :=
  match currentSnapshot sb snaps timestamp with
  | none =>
      let newCount := sb.totalSnapshotCount + 1
      let snap : BalanceSnapshot :=
        { filledAt := timestamp
          balance := sb.lastKnownBalance
          cumulativeBalanceSeconds := sb.cumulativeBalanceSeconds
          lastUpdateTime := timestamp }
      ({ sb with totalSnapshotCount := newCount },
       fun n => if n = newCount then some snap else snaps n)
  | some s =>
      let snap : BalanceSnapshot :=
        { filledAt := s.filledAt
          balance := sb.lastKnownBalance
          cumulativeBalanceSeconds :=
            s.cumulativeBalanceSeconds + s.balance * (timestamp - s.lastUpdateTime)
          lastUpdateTime := timestamp }
      (sb, fun n => if n = sb.totalSnapshotCount then some snap else snaps n)

/-- Lines 141–155 of `src/unnamed/part_001`: advance
`cumulativeBalanceSeconds` by the pre-update balance times the elapsed
time, then update the balance and `lastObservationTime`. -/
def updateStoreBalance (sb0 : StoreBalance) (ev : BalanceEvent) : StoreBalance :=
  { lastKnownBalance := stepBalance sb0.lastKnownBalance ev
    lastObservationTime := ev.timestamp
    cumulativeBalanceSeconds :=
      sb0.cumulativeBalanceSeconds
        + sb0.lastKnownBalance * (ev.timestamp - sb0.lastObservationTime)
    totalSnapshotCount := sb0.totalSnapshotCount }

/-- The accumulator step of `src/unnamed/part_001` lines 141–204 for an
already-existing account: update the `StoreBalance`, then touch the
snapshot log. -/
def applyBalanceChange (acc : AccountState) (ev : BalanceEvent) : AccountState :=
  { storeBalance :=
      (touchSnapshot (updateStoreBalance acc.storeBalance ev) acc.snapshots ev.timestamp).1
    snapshots :=
      (touchSnapshot (updateStoreBalance acc.storeBalance ev) acc.snapshots ev.timestamp).2 }

/-- Fresh `StoreBalance` of `src/unnamed/part_001` lines 126–134: zero
balance and cumulative, `lastObservationTime` set to the event's
timestamp, no snapshots yet. -/
def initialStoreBalance (timestamp : Int) : StoreBalance :=
  { lastKnownBalance := 0
    lastObservationTime := timestamp
    cumulativeBalanceSeconds := 0
    totalSnapshotCount := 0 }

/-- One full event application (`src/unnamed/part_001` lines 122–204):
the account is created on its first event, then the accumulator step
runs. -/
def processBalanceChange (acc : Option AccountState) (ev : BalanceEvent) : AccountState :=
  match acc with
  | some a => applyBalanceChange a ev
  | none =>
      applyBalanceChange
        { storeBalance := initialStoreBalance ev.timestamp, snapshots := fun _ => none } ev

/-- Fold a whole per-account event history (delivered in order) through
the processor; `none` when no event has ever been seen. -/
def processHistory (evs : List BalanceEvent) : Option AccountState :=
  evs.foldl (fun a ev => some (processBalanceChange a ev)) none

/-- `timestamp` chain check: `t` followed by the events' timestamps is
non-decreasing. -/
def chainFrom (t : Int) : List BalanceEvent → Bool
  | [] => true
  | ev :: rest => (decide (t ≤ ev.timestamp)) && chainFrom ev.timestamp rest

/-- The per-account delivery contract: timestamps are non-decreasing. -/
def sortedTimes : List BalanceEvent → Bool
  | [] => true
  | ev :: rest => chainFrom ev.timestamp rest

/-- Cumulative balance-seconds of a possibly-absent account. -/
def cumOf : Option AccountState → Int
  | none => 0
  | some a => a.storeBalance.cumulativeBalanceSeconds

/-- Last observation time of a possibly-absent account. -/
def lastObsOf : Option AccountState → Int
  | none => 0
  | some a => a.storeBalance.lastObservationTime

/-- Balance of a possibly-absent account. -/
def balOf : Option AccountState → Int
  | none => 0
  | some a => a.storeBalance.lastKnownBalance

/-- Snapshot count of a possibly-absent account. -/
def countOf : Option AccountState → Nat
  | none => 0
  | some a => a.storeBalance.totalSnapshotCount

/-! ## Reference simulation (for C1)

The reference value, written from the spec's words (`spec.md` §8,
"Conservation"): sum, over the inter-event intervals of the history, of
(balance held during the interval) × (interval duration in seconds).
The balance held after each event follows the ledger's clamping balance
policy (`spec.md` §3 / §4.1). -/

/-- Running sum of `balance × duration` over inter-event intervals,
starting from balance `b` held since time `t`. -/
def refAux (b t : Int) : List BalanceEvent → Int
  | [] => 0
  | ev :: rest => b * (ev.timestamp - t) + refAux (stepBalance b ev) ev.timestamp rest

/-- Direct simulation of the event history: Σ balance_i × duration_i over
all inter-event intervals (nothing accrues before the first event). -/
def referenceCumulative : List BalanceEvent → Int
  | [] => 0
  | ev :: rest => refAux (stepBalance 0 ev) ev.timestamp rest

/-! ## Direct-copy snapshot variant (for C4)

`touchSnapshotSpec` is written from the spec's words (§2/§4.2 of
`spec.md`: each checkpoint "mirrors the Account Ledger Entity at the
moments it was touched"): on an in-lifetime touch the open snapshot
directly copies the account's post-update `balance`,
`cumulativeBalanceSeconds` and timestamp, instead of the code's
incremental `snapshot.balance × (timestamp − snapshot.lastUpdateTime)`
addition. -/

/-- Modelled from the spec (§4.2 `Touch`): direct copy of the account's
post-update values into the open snapshot. -/
def touchSnapshotSpec (sb : StoreBalance) (snaps : Nat → Option BalanceSnapshot)
    (timestamp : Int) : StoreBalance × (Nat → Option BalanceSnapshot) :=
  match currentSnapshot sb snaps timestamp with
  | none =>
      let newCount := sb.totalSnapshotCount + 1
      let snap : BalanceSnapshot :=
        { filledAt := timestamp
          balance := sb.lastKnownBalance
          cumulativeBalanceSeconds := sb.cumulativeBalanceSeconds
          lastUpdateTime := timestamp }
      ({ sb with totalSnapshotCount := newCount },
       fun n => if n = newCount then some snap else snaps n)
  | some s =>
      let snap : BalanceSnapshot :=
        { filledAt := s.filledAt
          balance := sb.lastKnownBalance
          cumulativeBalanceSeconds := sb.cumulativeBalanceSeconds
          lastUpdateTime := timestamp }
      (sb, fun n => if n = sb.totalSnapshotCount then some snap else snaps n)

/-- Accumulator step with the spec's direct-copy snapshot touch. -/
def applyBalanceChangeSpec (acc : AccountState) (ev : BalanceEvent) : AccountState :=
  { storeBalance :=
      (touchSnapshotSpec (updateStoreBalance acc.storeBalance ev) acc.snapshots ev.timestamp).1
    snapshots :=
      (touchSnapshotSpec (updateStoreBalance acc.storeBalance ev) acc.snapshots ev.timestamp).2 }

/-- Event application with the spec's direct-copy snapshot touch. -/
def processBalanceChangeSpec (acc : Option AccountState) (ev : BalanceEvent) : AccountState :=
  match acc with
  | some a => applyBalanceChangeSpec a ev
  | none =>
      applyBalanceChangeSpec
        { storeBalance := initialStoreBalance ev.timestamp, snapshots := fun _ => none } ev

/-- History fold with the spec's direct-copy snapshot touch. -/
def processHistorySpec (evs : List BalanceEvent) : Option AccountState :=
  evs.foldl (fun a ev => some (processBalanceChangeSpec a ev)) none

/-- The open snapshot (the one at the current snapshot count) exists and
carries exactly the account's `lastKnownBalance`,
`cumulativeBalanceSeconds` and `lastObservationTime`. -/
def mirrorsb (a : AccountState) : Bool :=
  match a.snapshots a.storeBalance.totalSnapshotCount with
  | none => false
  | some s =>
      (s.balance == a.storeBalance.lastKnownBalance) &&
      (s.cumulativeBalanceSeconds == a.storeBalance.cumulativeBalanceSeconds) &&
      (s.lastUpdateTime == a.storeBalance.lastObservationTime)

/-- `mirrorsb` on a possibly-absent account. -/
def mirrorsOptb : Option AccountState → Bool
  | none => false
  | some a => mirrorsb a

/-! ## Interpolation query engine (`src/unnamed/part_000` lines 202–257)

`getCumulativeAt` is embedded from the TypeScript of lines 217–248.
The result is `Option Int`: `none` models the branch with no `return`
statement (the TS function falls through and returns `undefined`, which
poisons the caller's arithmetic with a thrown `TypeError`) and a thrown
`RangeError` from BigInt division by zero.  BigInt division truncates
toward zero, i.e. `Int.tdiv`. -/

def getCumulativeAt (t : Int) (snapshot : BalanceSnapshot)
    (previousSnapshot : Option BalanceSnapshot) : Option Int :=
  if t ≥ snapshot.lastUpdateTime then
    some (snapshot.cumulativeBalanceSeconds
      + snapshot.balance * (t - snapshot.lastUpdateTime))
  else if t ≥ snapshot.filledAt then
    let cumulativeAtFilledAt : Int :=
      match previousSnapshot with
      | some p =>
          p.cumulativeBalanceSeconds + p.balance * (snapshot.filledAt - p.lastUpdateTime)
      | none => 0
    let snapshotDuration := snapshot.lastUpdateTime - snapshot.filledAt
    let cumulativeGrowth := snapshot.cumulativeBalanceSeconds - cumulativeAtFilledAt
    if snapshotDuration = 0 then none
    else
      some (cumulativeAtFilledAt
        + (cumulativeGrowth.tdiv snapshotDuration) * (t - snapshot.filledAt))
  else none

/-- The average computation of `src/unnamed/part_000` lines 250–257:
`(cumulative2 - cumulative1) / (t2 - t1)` over the two `getCumulativeAt`
results; `none` models an error (undefined cumulative, or BigInt division
by zero when `t2 = t1`). -/
def averageBalance (t1 t2 : Int) (s1 : BalanceSnapshot) (p1 : Option BalanceSnapshot)
    (s2 : BalanceSnapshot) (p2 : Option BalanceSnapshot) : Option Int :=
  match getCumulativeAt t1 s1 p1, getCumulativeAt t2 s2 p2 with
  | some c1, some c2 =>
      if t2 - t1 = 0 then none
      else some ((c2 - c1).tdiv (t2 - t1))
  | _, _ => none

/-! ## Bracketing-snapshot lookup (Step 1 of the query pattern)

Step 1 of the documented query pattern (`src/unnamed/part_000`
lines 202–213): select the snapshots with `filledAt ≤ t`, order by
`filledAt` descending, limit 2; then feed them to `getCumulativeAt`. -/

def insertDesc (s : BalanceSnapshot) : List BalanceSnapshot → List BalanceSnapshot
  | [] => [s]
  | x :: xs => if x.filledAt ≤ s.filledAt then s :: x :: xs else x :: insertDesc s xs

/-- `ORDER BY filledAt DESC` (insertion sort). -/
def sortByFilledAtDesc : List BalanceSnapshot → List BalanceSnapshot
  | [] => []
  | x :: xs => insertDesc x (sortByFilledAtDesc xs)

/-- `WHERE filledAt <= t ORDER BY filledAt DESC LIMIT 2`. -/
def selectBracketing (snaps : List BalanceSnapshot) (t : Int) : List BalanceSnapshot :=
  (sortByFilledAtDesc (snaps.filter (fun s => decide (s.filledAt ≤ t)))).take 2

/-- Query-level `CumulativeAt`: bracketing lookup, then
`getCumulativeAt t rows[0] rows[1]`.  When the lookup is empty (t
precedes the first event) there is no defined result: `rows[0]` is
`undefined` and the property access in `getCumulativeAt` throws — modelled
as `none`. -/
def cumulativeAtQuery (snaps : List BalanceSnapshot) (t : Int) : Option Int :=
  match selectBracketing snaps t with
  | [] => none
  | s :: rest => getCumulativeAt t s rest.head?

/-- Query-level average over the same snapshot list. -/
def averageBalanceQuery (snaps : List BalanceSnapshot) (t1 t2 : Int) : Option Int :=
  match cumulativeAtQuery snaps t1, cumulativeAtQuery snaps t2 with
  | some c1, some c2 =>
      if t2 - t1 = 0 then none
      else some ((c2 - c1).tdiv (t2 - t1))
  | _, _ => none

/-! ## Entity store and the full fungible-asset handler

Embedding of the full `processBalanceChange` handler of
`src/unnamed/part_001` (lines 55–214) over the keyed entity store.  The
RPC `store_metadata` view call is an oracle parameter: `some m` is a
successful call resolving the store's fungible-asset metadata address,
`none` is a thrown/failed call or an empty result (both are caught and
make the handler return, line 108–111).  Entities are keyed by their
string ids; snapshot ids `{storeAddress}-{sequence}` are modelled as the
pair of address and sequence. -/

/-- `StoreMetadataCache` entity (schema in `src/unnamed/part_000`). -/
structure StoreMetadataCache where
  metadata : String
  isCanopyVault : Bool
  vaultID : Option String
deriving DecidableEq

/-- `FungibleAssetStats` singleton entity. -/
structure FungibleAssetStats where
  totalDepositCount : Nat
  totalWithdrawCount : Nat
  uniqueStoreCount : Nat
  canopyVaultStoreCount : Nat
  lastUpdateTime : Int
deriving DecidableEq

/-- `Transaction` entity, keyed by `{version}-{eventIndex}`. -/
structure Transaction where
  storeBalanceID : String
  signer : String
  timestamp : Int
  isDeposit : Bool
  amount : Nat
  transactionVersion : Nat
  eventIndex : Nat
deriving DecidableEq

/-- The keyed entity store visible to the fungible-asset handler.
`vaultsByMetadata m` models
`store.list(Vault, [sharesMetadata = m])` — the ids of the matching
`Vault` entities (read-only for this handler). -/
structure EntityStore where
  metadataCache : String → Option StoreMetadataCache
  storeBalances : String → Option StoreBalance
  snapshots : String → Nat → Option BalanceSnapshot
  transactions : String → Option Transaction
  stats : Option FungibleAssetStats
  vaultsByMetadata : String → List String

/-- `Transaction` id `${ctx.version}-${ctx.eventIndex}`. -/
def txKey (version eventIndex : Nat) : String :=
  toString version ++ "-" ++ toString eventIndex

/-- `getOrCreateFungibleAssetStats` of `src/unnamed/part_001`
lines 219–235 (pure part: the created entity is only persisted by the
final upserts). -/
def getOrCreateFungibleAssetStats (stats : Option FungibleAssetStats)
    (timestamp : Int) : FungibleAssetStats :=
  match stats with
  | some s => s
  | none =>
      { totalDepositCount := 0
        totalWithdrawCount := 0
        uniqueStoreCount := 0
        canopyVaultStoreCount := 0
        lastUpdateTime := timestamp }

/-- The tracked path of the handler (`src/unnamed/part_001`
lines 119–213): get-or-create the `StoreBalance` (bumping the
unique-store counters on creation), run the accumulator and snapshot
touch, bump the deposit/withdraw counter, record the `Transaction`, and
upsert everything. -/
def processTracked (st : EntityStore) (storeAddress : String) (amount : Nat)
    (isDeposit : Bool) (timestamp : Int) (stats0 : FungibleAssetStats)
    (signer : String) (version eventIndex : Nat) : EntityStore :=
  let existing := st.storeBalances storeAddress
  let stats1 :=
    match existing with
    | some _ => stats0
    | none =>
        { stats0 with
            uniqueStoreCount := stats0.uniqueStoreCount + 1
            canopyVaultStoreCount := stats0.canopyVaultStoreCount + 1 }
  let acc : AccountState :=
    { storeBalance :=
        match existing with
        | some sb => sb
        | none => initialStoreBalance timestamp
      snapshots := st.snapshots storeAddress }
  let acc2 := applyBalanceChange acc
    { timestamp := timestamp, amount := amount, isDeposit := isDeposit }
  let stats2 :=
    if isDeposit then { stats1 with totalDepositCount := stats1.totalDepositCount + 1 }
    else { stats1 with totalWithdrawCount := stats1.totalWithdrawCount + 1 }
  let tx : Transaction :=
    { storeBalanceID := storeAddress
      signer := signer
      timestamp := timestamp
      isDeposit := isDeposit
      amount := amount
      transactionVersion := version
      eventIndex := eventIndex }
  { st with
      storeBalances := fun a => if a = storeAddress then some acc2.storeBalance else st.storeBalances a
      snapshots := fun a => if a = storeAddress then acc2.snapshots else st.snapshots a
      transactions := fun k => if k = txKey version eventIndex then some tx else st.transactions k
      stats := some { stats2 with lastUpdateTime := timestamp } }

/-- The full handler (`src/unnamed/part_001` lines 55–214).  On a
metadata-cache miss the view call either fails (`viewResult = none`;
caught, return with nothing persisted) or resolves the metadata address,
in which case the cache entry is built from the `Vault` lookup and
upserted; non-Canopy stores then return before any ledger entity is
touched.  The source merges the cache-hit and cache-miss paths before a
single `isCanopyVault` check; here the check appears once per branch,
which is the same control flow. -/
def processBalanceChangeHandler (st : EntityStore) (storeAddress : String) (amount : Nat)
    (isDeposit : Bool) (timestamp : Int) (viewResult : Option String)
    (signer : String) (version eventIndex : Nat) : EntityStore :=
  let stats0 := getOrCreateFungibleAssetStats st.stats timestamp
  match st.metadataCache storeAddress with
  | some storeMetadata =>
      if storeMetadata.isCanopyVault then
        processTracked st storeAddress amount isDeposit timestamp stats0 signer version eventIndex
      else st
  | none =>
      match viewResult with
      | none => st
      | some metadataAddress =>
          let vaults := st.vaultsByMetadata metadataAddress
          let isCanopyVault := !vaults.isEmpty
          let storeMetadata : StoreMetadataCache :=
            { metadata := metadataAddress
              isCanopyVault := isCanopyVault
              vaultID := if isCanopyVault then vaults.head? else none }
          let st1 := { st with
            metadataCache := fun a =>
              if a = storeAddress then some storeMetadata else st.metadataCache a }
          if isCanopyVault then
            processTracked st1 storeAddress amount isDeposit timestamp stats0 signer version eventIndex
          else st1

/-- The event's store does not resolve to a tracked Canopy vault: either
the cache already marks it non-Canopy, or the cache misses and the view
call fails, or the resolved metadata matches no `Vault` entity. -/
def nonTrackedOutcome (st : EntityStore) (storeAddress : String)
    (viewResult : Option String) : Prop :=
  match st.metadataCache storeAddress, viewResult with
  | some e, _ => e.isCanopyVault = false
  | none, none => True
  | none, some m => st.vaultsByMetadata m = []

/-! ## Step lemmas -/

theorem touchSnapshot_balance (sb : StoreBalance) (snaps : Nat → Option BalanceSnapshot)
    (t : Int) : (touchSnapshot sb snaps t).1.lastKnownBalance = sb.lastKnownBalance := by
  rcases hc : currentSnapshot sb snaps t with _ | s <;> simp [touchSnapshot, hc]

theorem touchSnapshot_cum (sb : StoreBalance) (snaps : Nat → Option BalanceSnapshot)
    (t : Int) :
    (touchSnapshot sb snaps t).1.cumulativeBalanceSeconds = sb.cumulativeBalanceSeconds := by
  rcases hc : currentSnapshot sb snaps t with _ | s <;> simp [touchSnapshot, hc]

theorem touchSnapshot_lastObs (sb : StoreBalance) (snaps : Nat → Option BalanceSnapshot)
    (t : Int) :
    (touchSnapshot sb snaps t).1.lastObservationTime = sb.lastObservationTime := by
  rcases hc : currentSnapshot sb snaps t with _ | s <;> simp [touchSnapshot, hc]

theorem touchSnapshot_count_ge (sb : StoreBalance) (snaps : Nat → Option BalanceSnapshot)
    (t : Int) :
    sb.totalSnapshotCount ≤ (touchSnapshot sb snaps t).1.totalSnapshotCount := by
  rcases hc : currentSnapshot sb snaps t with _ | s <;> simp [touchSnapshot, hc]

theorem applyBalanceChange_cum (acc : AccountState) (ev : BalanceEvent) :
    (applyBalanceChange acc ev).storeBalance.cumulativeBalanceSeconds
      = acc.storeBalance.cumulativeBalanceSeconds
        + acc.storeBalance.lastKnownBalance
          * (ev.timestamp - acc.storeBalance.lastObservationTime) := by
  unfold applyBalanceChange
  rw [touchSnapshot_cum]
  rfl

theorem applyBalanceChange_bal (acc : AccountState) (ev : BalanceEvent) :
    (applyBalanceChange acc ev).storeBalance.lastKnownBalance
      = stepBalance acc.storeBalance.lastKnownBalance ev := by
  unfold applyBalanceChange
  rw [touchSnapshot_balance]
  rfl

theorem applyBalanceChange_lastObs (acc : AccountState) (ev : BalanceEvent) :
    (applyBalanceChange acc ev).storeBalance.lastObservationTime = ev.timestamp := by
  unfold applyBalanceChange
  rw [touchSnapshot_lastObs]
  rfl

theorem foldl_some (evs : List BalanceEvent) (a : AccountState) :
    evs.foldl (fun x ev => some (processBalanceChange x ev)) (some a)
      = some (evs.foldl applyBalanceChange a) := by
  induction evs generalizing a with
  | nil => rfl
  | cons e r ih => simpa [List.foldl, processBalanceChange] using ih (applyBalanceChange a e)

theorem processHistory_cons (e : BalanceEvent) (r : List BalanceEvent) :
    processHistory (e :: r) = some (r.foldl applyBalanceChange (processBalanceChange none e)) := by
  unfold processHistory
  simpa [List.foldl] using foldl_some r (processBalanceChange none e)

theorem foldl_cum (evs : List BalanceEvent) (acc : AccountState) :
    (evs.foldl applyBalanceChange acc).storeBalance.cumulativeBalanceSeconds
      = acc.storeBalance.cumulativeBalanceSeconds
        + refAux acc.storeBalance.lastKnownBalance acc.storeBalance.lastObservationTime evs := by
  induction evs generalizing acc with
  | nil => simp [refAux]
  | cons e r ih =>
      rw [List.foldl_cons, ih (applyBalanceChange acc e), refAux,
        applyBalanceChange_cum, applyBalanceChange_bal, applyBalanceChange_lastObs]
      ring

theorem lifetime_eq : SNAPSHOT_LIFETIME_SECONDS = 86400 := by norm_num [SNAPSHOT_LIFETIME_SECONDS]

theorem currentSnapshot_some (sb : StoreBalance) (snaps : Nat → Option BalanceSnapshot)
    (t : Int) (s : BalanceSnapshot) (hcount : sb.totalSnapshotCount > 0)
    (hs : snaps sb.totalSnapshotCount = some s)
    (hage : ¬ t - s.filledAt > SNAPSHOT_LIFETIME_SECONDS) :
    currentSnapshot sb snaps t = some s := by
  simp [currentSnapshot, hcount, hs, hage]

theorem currentSnapshot_none_of_age (sb : StoreBalance) (snaps : Nat → Option BalanceSnapshot)
    (t : Int) (s : BalanceSnapshot)
    (hs : snaps sb.totalSnapshotCount = some s)
    (hage : t - s.filledAt > SNAPSHOT_LIFETIME_SECONDS) :
    currentSnapshot sb snaps t = none := by
  by_cases hcount : sb.totalSnapshotCount > 0 <;> simp [currentSnapshot, hcount, hs, hage]

theorem touchSnapshot_count_new (sb : StoreBalance) (snaps : Nat → Option BalanceSnapshot)
    (t : Int) (h : currentSnapshot sb snaps t = none) :
    (touchSnapshot sb snaps t).1.totalSnapshotCount = sb.totalSnapshotCount + 1 := by
  simp [touchSnapshot, h]

theorem touchSnapshot_count_update (sb : StoreBalance) (snaps : Nat → Option BalanceSnapshot)
    (t : Int) (s : BalanceSnapshot) (h : currentSnapshot sb snaps t = some s) :
    (touchSnapshot sb snaps t).1.totalSnapshotCount = sb.totalSnapshotCount := by
  simp [touchSnapshot, h]

theorem updateStoreBalance_count (sb : StoreBalance) (ev : BalanceEvent) :
    (updateStoreBalance sb ev).totalSnapshotCount = sb.totalSnapshotCount := rfl

theorem touchSnapshot_snd_new (sb : StoreBalance) (snaps : Nat → Option BalanceSnapshot)
    (t : Int) (h : currentSnapshot sb snaps t = none) :
    (touchSnapshot sb snaps t).2
      = fun n => if n = sb.totalSnapshotCount + 1 then
          some { filledAt := t, balance := sb.lastKnownBalance,
                 cumulativeBalanceSeconds := sb.cumulativeBalanceSeconds, lastUpdateTime := t }
        else snaps n := by
  simp [touchSnapshot, h]

theorem touchSnapshot_snd_update (sb : StoreBalance) (snaps : Nat → Option BalanceSnapshot)
    (t : Int) (s : BalanceSnapshot) (h : currentSnapshot sb snaps t = some s) :
    (touchSnapshot sb snaps t).2
      = fun n => if n = sb.totalSnapshotCount then
          some { filledAt := s.filledAt, balance := sb.lastKnownBalance,
                 cumulativeBalanceSeconds :=
                   s.cumulativeBalanceSeconds + s.balance * (t - s.lastUpdateTime),
                 lastUpdateTime := t }
        else snaps n := by
  simp [touchSnapshot, h]

/-- State after the very first event of a fresh account: exactly one
snapshot, opened at the event's timestamp. -/
theorem first_event_state (ev : BalanceEvent) :
    (processBalanceChange none ev).storeBalance.totalSnapshotCount = 1 ∧
    (processBalanceChange none ev).snapshots 1
      = some { filledAt := ev.timestamp
               balance := stepBalance 0 ev
               cumulativeBalanceSeconds := 0
               lastUpdateTime := ev.timestamp } := by
  have hcur : currentSnapshot
      (updateStoreBalance (initialStoreBalance ev.timestamp) ev) (fun _ => none) ev.timestamp
      = none := by
    simp [currentSnapshot, updateStoreBalance, initialStoreBalance]
  constructor
  · show (applyBalanceChange _ ev).storeBalance.totalSnapshotCount = 1
    unfold applyBalanceChange
    rw [touchSnapshot_count_new _ _ _ hcur]
    rfl
  · show (applyBalanceChange _ ev).snapshots 1 = _
    unfold applyBalanceChange
    rw [touchSnapshot_snd_new _ _ _ hcur]
    simp [updateStoreBalance, initialStoreBalance]

theorem applyBalanceChange_new (acc : AccountState) (ev : BalanceEvent)
    (hc : currentSnapshot (updateStoreBalance acc.storeBalance ev) acc.snapshots ev.timestamp
      = none) :
    (applyBalanceChange acc ev).storeBalance.totalSnapshotCount
      = acc.storeBalance.totalSnapshotCount + 1 ∧
    (applyBalanceChange acc ev).snapshots
      = fun n => if n = acc.storeBalance.totalSnapshotCount + 1 then
          some { filledAt := ev.timestamp
                 balance := stepBalance acc.storeBalance.lastKnownBalance ev
                 cumulativeBalanceSeconds :=
                   acc.storeBalance.cumulativeBalanceSeconds
                     + acc.storeBalance.lastKnownBalance
                       * (ev.timestamp - acc.storeBalance.lastObservationTime)
                 lastUpdateTime := ev.timestamp }
        else acc.snapshots n := by
  unfold applyBalanceChange
  rw [touchSnapshot_count_new _ _ _ hc, touchSnapshot_snd_new _ _ _ hc]
  exact ⟨rfl, rfl⟩

theorem applyBalanceChange_update (acc : AccountState) (ev : BalanceEvent) (s : BalanceSnapshot)
    (hc : currentSnapshot (updateStoreBalance acc.storeBalance ev) acc.snapshots ev.timestamp
      = some s) :
    (applyBalanceChange acc ev).storeBalance.totalSnapshotCount
      = acc.storeBalance.totalSnapshotCount ∧
    (applyBalanceChange acc ev).snapshots
      = fun n => if n = acc.storeBalance.totalSnapshotCount then
          some { filledAt := s.filledAt
                 balance := stepBalance acc.storeBalance.lastKnownBalance ev
                 cumulativeBalanceSeconds :=
                   s.cumulativeBalanceSeconds + s.balance * (ev.timestamp - s.lastUpdateTime)
                 lastUpdateTime := ev.timestamp }
        else acc.snapshots n := by
  unfold applyBalanceChange
  rw [touchSnapshot_count_update _ _ _ _ hc, touchSnapshot_snd_update _ _ _ _ hc]
  exact ⟨rfl, rfl⟩

theorem stepBalance_withdraw (b : Int) (a : Nat) :
    stepBalance b { timestamp := 0, amount := a, isDeposit := false } = max 0 (b - (a : Int)) ∧
    ∀ t : Int, stepBalance b { timestamp := t, amount := a, isDeposit := false }
      = stepBalance b { timestamp := 0, amount := a, isDeposit := false } := by
  refine ⟨?_, fun t => rfl⟩
  unfold stepBalance
  simp only [Bool.false_eq_true, if_false]
  split <;> omega

theorem stepBalance_nonneg (b : Int) (ev : BalanceEvent) (hb : 0 ≤ b) :
    0 ≤ stepBalance b ev := by
  unfold stepBalance
  split
  · omega
  · split <;> omega

/-- Snapshot count after exactly two events on a fresh account: 2 when
the second event is strictly more than the lifetime after the first,
otherwise still 1. -/
theorem second_event_count (e₁ e₂ : BalanceEvent) :
    countOf (processHistory [e₁, e₂])
      = if e₂.timestamp - e₁.timestamp > SNAPSHOT_LIFETIME_SECONDS then 2 else 1 := by
  have h₁ := first_event_state e₁
  have hsnap : (processBalanceChange none e₁).snapshots
      (updateStoreBalance (processBalanceChange none e₁).storeBalance e₂).totalSnapshotCount
      = some { filledAt := e₁.timestamp, balance := stepBalance 0 e₁,
               cumulativeBalanceSeconds := 0, lastUpdateTime := e₁.timestamp } := by
    rw [updateStoreBalance_count, h₁.1]
    exact h₁.2
  rw [processHistory_cons]
  show (List.foldl applyBalanceChange _ _).storeBalance.totalSnapshotCount = _
  rw [List.foldl_cons, List.foldl_nil]
  by_cases hc : e₂.timestamp - e₁.timestamp > SNAPSHOT_LIFETIME_SECONDS
  · rw [if_pos hc]
    have hcur := currentSnapshot_none_of_age _ _ e₂.timestamp _ hsnap hc
    unfold applyBalanceChange
    rw [touchSnapshot_count_new _ _ _ hcur, updateStoreBalance_count, h₁.1]
  · rw [if_neg hc]
    have hcount : (updateStoreBalance (processBalanceChange none e₁).storeBalance e₂).totalSnapshotCount > 0 := by
      rw [updateStoreBalance_count, h₁.1]
      norm_num
    have hcur := currentSnapshot_some _ _ e₂.timestamp _ hcount hsnap hc
    unfold applyBalanceChange
    rw [touchSnapshot_count_update _ _ _ _ hcur, updateStoreBalance_count, h₁.1]

theorem touchSnapshot_eq_spec_none (sb : StoreBalance) (snaps : Nat → Option BalanceSnapshot)
    (t : Int) (hc : currentSnapshot sb snaps t = none) :
    touchSnapshot sb snaps t = touchSnapshotSpec sb snaps t := by
  unfold touchSnapshot touchSnapshotSpec
  rw [hc]

theorem currentSnapshot_elim_some (sb : StoreBalance) (snaps : Nat → Option BalanceSnapshot)
    (t : Int) (s : BalanceSnapshot) (hc : currentSnapshot sb snaps t = some s) :
    snaps sb.totalSnapshotCount = some s := by
  unfold currentSnapshot at hc
  by_cases h0 : sb.totalSnapshotCount > 0
  · rw [if_pos h0] at hc
    rcases hs : snaps sb.totalSnapshotCount with _ | s'
    · rw [hs] at hc
      exact absurd hc (by simp)
    · rw [hs] at hc
      dsimp only at hc
      by_cases hage : t - s'.filledAt > SNAPSHOT_LIFETIME_SECONDS
      · rw [if_pos hage] at hc
        exact absurd hc (by simp)
      · rw [if_neg hage] at hc
        exact hc
  · rw [if_neg h0] at hc
    exact absurd hc (by simp)

theorem mirror_step (acc : AccountState) (ev : BalanceEvent) (h : mirrorsb acc = true) :
    applyBalanceChange acc ev = applyBalanceChangeSpec acc ev ∧
    mirrorsb (applyBalanceChange acc ev) = true := by
  rcases hc : currentSnapshot (updateStoreBalance acc.storeBalance ev) acc.snapshots ev.timestamp
    with _ | s
  · obtain ⟨h1, h2⟩ := applyBalanceChange_new acc ev hc
    constructor
    · unfold applyBalanceChange applyBalanceChangeSpec
      rw [touchSnapshot_eq_spec_none _ _ _ hc]
    · unfold mirrorsb
      rw [h1, h2]
      simp [applyBalanceChange_bal, applyBalanceChange_cum, applyBalanceChange_lastObs]
  · -- the open snapshot is updated in place; `mirrorsb acc` identifies it
    have hs : acc.snapshots acc.storeBalance.totalSnapshotCount = some s := by
      have := currentSnapshot_elim_some _ _ _ _ hc
      rwa [updateStoreBalance_count] at this
    unfold mirrorsb at h
    rw [hs] at h
    simp only [Bool.and_eq_true, beq_iff_eq] at h
    obtain ⟨⟨hbal, hcum⟩, hlast⟩ := h
    constructor
    · unfold applyBalanceChange applyBalanceChangeSpec touchSnapshot touchSnapshotSpec
      rw [hc]
      dsimp only
      have heq : s.cumulativeBalanceSeconds + s.balance * (ev.timestamp - s.lastUpdateTime)
          = (updateStoreBalance acc.storeBalance ev).cumulativeBalanceSeconds := by
        rw [hbal, hcum, hlast]
        rfl
      rw [heq]
    · obtain ⟨h1, h2⟩ := applyBalanceChange_update acc ev s hc
      unfold mirrorsb
      rw [h1, h2]
      simp only [if_pos rfl]
      have hcum' := applyBalanceChange_cum acc ev
      have hbal' := applyBalanceChange_bal acc ev
      have hlast' := applyBalanceChange_lastObs acc ev
      rw [hcum', hbal', hlast', hbal, hcum, hlast]
      simp

theorem first_event_currentSnapshot (ev : BalanceEvent) :
    currentSnapshot (updateStoreBalance (initialStoreBalance ev.timestamp) ev)
      (fun _ => none) ev.timestamp = none := by
  simp [currentSnapshot, updateStoreBalance, initialStoreBalance]

theorem first_event_mirror (ev : BalanceEvent) :
    mirrorsb (processBalanceChange none ev) = true := by
  have hd : processBalanceChange none ev
      = applyBalanceChange
          { storeBalance := initialStoreBalance ev.timestamp, snapshots := fun _ => none } ev := rfl
  obtain ⟨h1, h2⟩ := applyBalanceChange_new
    { storeBalance := initialStoreBalance ev.timestamp, snapshots := fun _ => none } ev
    (first_event_currentSnapshot ev)
  rw [hd]
  unfold mirrorsb
  rw [h1, h2]
  simp [applyBalanceChange_bal, applyBalanceChange_cum, applyBalanceChange_lastObs]

theorem first_event_eq_spec (ev : BalanceEvent) :
    processBalanceChange none ev = processBalanceChangeSpec none ev := by
  show applyBalanceChange _ ev = applyBalanceChangeSpec _ ev
  unfold applyBalanceChange applyBalanceChangeSpec
  rw [touchSnapshot_eq_spec_none _ _ _ (first_event_currentSnapshot ev)]

theorem mirror_fold (evs : List BalanceEvent) (acc : AccountState) (h : mirrorsb acc = true) :
    evs.foldl applyBalanceChange acc = evs.foldl applyBalanceChangeSpec acc ∧
    mirrorsb (evs.foldl applyBalanceChange acc) = true := by
  induction evs generalizing acc with
  | nil => exact ⟨rfl, h⟩
  | cons e r ih =>
      obtain ⟨he, hm⟩ := mirror_step acc e h
      obtain ⟨hr, hm'⟩ := ih (applyBalanceChange acc e) hm
      refine ⟨?_, hm'⟩
      rw [List.foldl_cons, List.foldl_cons, ← he, hr]

theorem foldl_some_spec (evs : List BalanceEvent) (a : AccountState) :
    evs.foldl (fun x ev => some (processBalanceChangeSpec x ev)) (some a)
      = some (evs.foldl applyBalanceChangeSpec a) := by
  induction evs generalizing a with
  | nil => rfl
  | cons e r ih => simpa [List.foldl, processBalanceChangeSpec] using ih (applyBalanceChangeSpec a e)

theorem processHistorySpec_cons (e : BalanceEvent) (r : List BalanceEvent) :
    processHistorySpec (e :: r)
      = some (r.foldl applyBalanceChangeSpec (processBalanceChangeSpec none e)) := by
  unfold processHistorySpec
  simpa [List.foldl] using foldl_some_spec r (processBalanceChangeSpec none e)

/-- Generalized fold monotonicity: starting from a non-negative balance,
with all remaining timestamps chained after the account's
`lastObservationTime`, the cumulative и the observation time never
decrease, the balance stays non-negative, and the timestamp chain
survives the fold. -/
theorem fold_mono (evs l₂ : List BalanceEvent) (acc : AccountState)
    (hb : 0 ≤ acc.storeBalance.lastKnownBalance)
    (hs : chainFrom acc.storeBalance.lastObservationTime (evs ++ l₂) = true) :
    acc.storeBalance.cumulativeBalanceSeconds
      ≤ (evs.foldl applyBalanceChange acc).storeBalance.cumulativeBalanceSeconds ∧
    acc.storeBalance.lastObservationTime
      ≤ (evs.foldl applyBalanceChange acc).storeBalance.lastObservationTime ∧
    0 ≤ (evs.foldl applyBalanceChange acc).storeBalance.lastKnownBalance ∧
    chainFrom (evs.foldl applyBalanceChange acc).storeBalance.lastObservationTime l₂ = true := by
  induction evs generalizing acc with
  | nil =>
      rw [List.nil_append] at hs
      exact ⟨le_refl _, le_refl _, hb, hs⟩
  | cons e r ih =>
      rw [List.cons_append, chainFrom, Bool.and_eq_true, decide_eq_true_eq] at hs
      have hstep_cum : acc.storeBalance.cumulativeBalanceSeconds
          ≤ (applyBalanceChange acc e).storeBalance.cumulativeBalanceSeconds := by
        rw [applyBalanceChange_cum]
        have hmul : 0 ≤ acc.storeBalance.lastKnownBalance
            * (e.timestamp - acc.storeBalance.lastObservationTime) :=
          mul_nonneg hb (sub_nonneg.mpr hs.1)
        linarith
      have hbal' : 0 ≤ (applyBalanceChange acc e).storeBalance.lastKnownBalance := by
        rw [applyBalanceChange_bal]
        exact stepBalance_nonneg _ e hb
      have hchain' : chainFrom
          (applyBalanceChange acc e).storeBalance.lastObservationTime (r ++ l₂) = true := by
        rw [applyBalanceChange_lastObs]
        exact hs.2
      obtain ⟨ih1, ih2, ih3, ih4⟩ := ih (applyBalanceChange acc e) hbal' hchain'
      rw [List.foldl_cons]
      refine ⟨le_trans hstep_cum ih1, ?_, ih3, ih4⟩
      calc acc.storeBalance.lastObservationTime ≤ e.timestamp := hs.1
        _ = (applyBalanceChange acc e).storeBalance.lastObservationTime :=
            (applyBalanceChange_lastObs acc e).symm
        _ ≤ _ := ih2

/-- In the interpolation branch the divisor is positive, never zero. -/
theorem interpolation_divisor_pos (s : BalanceSnapshot) (t : Int)
    (h1 : s.filledAt ≤ t) (h2 : t < s.lastUpdateTime) :
    0 < s.lastUpdateTime - s.filledAt := by omega

/-! ## C1 — conservation -/

/-- C1.  Conservation: folding any finite per-account event history
(delivered in non-decreasing timestamp order) through the accumulator
yields exactly the directly-simulated Σ balance_i × duration_i. -/
theorem conservation_cumulative_eq_reference (evs : List BalanceEvent)
    (_hsorted : sortedTimes evs = true) :
    cumOf (processHistory evs) = referenceCumulative evs := by
  cases evs with
  | nil => rfl
  | cons e r =>
      rw [processHistory_cons, cumOf, foldl_cum]
      have h0 : processBalanceChange none e
          = applyBalanceChange
              { storeBalance := initialStoreBalance e.timestamp, snapshots := fun _ => none } e := rfl
      rw [h0, applyBalanceChange_cum, applyBalanceChange_bal, applyBalanceChange_lastObs,
        referenceCumulative]
      simp [initialStoreBalance]

/-- C1 witness: a concrete three-event history (the spec's §8 scenario). -/
theorem conservation_cumulative_eq_reference_witness :
    cumOf (processHistory
      [{ timestamp := 1000, amount := 1000000, isDeposit := true },
       { timestamp := 4600, amount := 500000, isDeposit := true },
       { timestamp := 26200, amount := 2000000, isDeposit := true }])
      = referenceCumulative
          [{ timestamp := 1000, amount := 1000000, isDeposit := true },
           { timestamp := 4600, amount := 500000, isDeposit := true },
           { timestamp := 26200, amount := 2000000, isDeposit := true }] :=
  conservation_cumulative_eq_reference _ (by decide)

/-! ## C2 — underflow clamping -/

/-- C2.  Underflow clamping: a withdraw of `a` at time `t ≥
lastObservationTime` leaves balance `max 0 (b − a)` (so a withdrawal
larger than the balance yields exactly 0 and is still processed), while
`cumulativeBalanceSeconds` advances by the pre-withdrawal balance times
the elapsed time. -/
theorem withdraw_clamps_to_zero (acc : AccountState) (t : Int) (a : Nat)
    (_ht : acc.storeBalance.lastObservationTime ≤ t) :
    (processBalanceChange (some acc)
        { timestamp := t, amount := a, isDeposit := false }).storeBalance.lastKnownBalance
      = max 0 (acc.storeBalance.lastKnownBalance - (a : Int)) ∧
    (processBalanceChange (some acc)
        { timestamp := t, amount := a, isDeposit := false }).storeBalance.cumulativeBalanceSeconds
      = acc.storeBalance.cumulativeBalanceSeconds
        + acc.storeBalance.lastKnownBalance * (t - acc.storeBalance.lastObservationTime) := by
  constructor
  · show (applyBalanceChange acc _).storeBalance.lastKnownBalance = _
    rw [applyBalanceChange_bal, (stepBalance_withdraw _ a).2 t, (stepBalance_withdraw _ a).1]
  · exact applyBalanceChange_cum acc _

/-- C2 witness: the spec's §8 scenario 5 — withdraw 999,999,999 from
balance 3,500,000.  The balance is clamped to 0 and the cumulative still
advances at the pre-withdrawal balance. -/
theorem withdraw_clamps_to_zero_witness :
    (processBalanceChange
        (some { storeBalance :=
                  { lastKnownBalance := 3500000
                    lastObservationTime := 26200
                    cumulativeBalanceSeconds := 36000000000
                    totalSnapshotCount := 0 }
                snapshots := fun _ => none })
        { timestamp := 26300, amount := 999999999, isDeposit := false }).storeBalance.lastKnownBalance
      = max 0 ((3500000 : Int) - (999999999 : Int)) ∧
    (processBalanceChange
        (some { storeBalance :=
                  { lastKnownBalance := 3500000
                    lastObservationTime := 26200
                    cumulativeBalanceSeconds := 36000000000
                    totalSnapshotCount := 0 }
                snapshots := fun _ => none })
        { timestamp := 26300, amount := 999999999, isDeposit := false }).storeBalance.cumulativeBalanceSeconds
      = 36000000000 + 3500000 * ((26300 : Int) - 26200) :=
  withdraw_clamps_to_zero _ _ _ (by norm_num)

/-! ## C3 — rollover boundary is strict -/

/-- C3.  Rollover boundary: on a fresh account, a second event exactly
86400 seconds after the first keeps `totalSnapshotCount` at 1, while a
second event 86401 seconds after the first raises it to 2 — the age
check against the 24-hour lifetime is strict `>`. -/
theorem rollover_boundary_strict (t : Int) (a₁ a₂ : Nat) (d₁ d₂ : Bool) :
    countOf (processHistory
      [{ timestamp := t, amount := a₁, isDeposit := d₁ },
       { timestamp := t + 86400, amount := a₂, isDeposit := d₂ }]) = 1 ∧
    countOf (processHistory
      [{ timestamp := t, amount := a₁, isDeposit := d₁ },
       { timestamp := t + 86401, amount := a₂, isDeposit := d₂ }]) = 2 := by
  rw [second_event_count, second_event_count]
  constructor
  · rw [if_neg]
    show ¬ t + 86400 - t > SNAPSHOT_LIFETIME_SECONDS
    rw [lifetime_eq]
    omega
  · rw [if_pos]
    show t + 86401 - t > SNAPSHOT_LIFETIME_SECONDS
    rw [lifetime_eq]
    omega

/-! ## C4 — the open snapshot mirrors the account -/

/-- C4.  After every event of a history delivered in non-decreasing
timestamp order, the open snapshot exists and mirrors the account's
`lastKnownBalance`, `cumulativeBalanceSeconds` and `lastObservationTime`;
consequently the code's incremental snapshot update is equivalent to the
spec's direct copy of the account's post-update values: the two
processors produce identical account states. -/
theorem open_snapshot_mirrors_account (evs : List BalanceEvent)
    (_hsorted : sortedTimes evs = true) (hne : evs ≠ []) :
    mirrorsOptb (processHistory evs) = true ∧
    processHistory evs = processHistorySpec evs := by
  cases evs with
  | nil => exact absurd rfl hne
  | cons e r =>
      rw [processHistory_cons, processHistorySpec_cons]
      obtain ⟨heq, hm⟩ := mirror_fold r (processBalanceChange none e) (first_event_mirror e)
      constructor
      · exact hm
      · rw [heq, first_event_eq_spec]

/-- C4 witness: a concrete two-event history. -/
theorem open_snapshot_mirrors_account_witness :
    mirrorsOptb (processHistory
      [{ timestamp := 1000, amount := 7, isDeposit := true },
       { timestamp := 5000, amount := 3, isDeposit := false }]) = true ∧
    processHistory
      [{ timestamp := 1000, amount := 7, isDeposit := true },
       { timestamp := 5000, amount := 3, isDeposit := false }]
      = processHistorySpec
          [{ timestamp := 1000, amount := 7, isDeposit := true },
           { timestamp := 5000, amount := 3, isDeposit := false }] :=
  open_snapshot_mirrors_account _ (by decide) (by decide)

/-! ## C5 — zero-length-window division guard -/

/-- C5.  Zero-length-window guard: for a snapshot touched only once
(`lastUpdateTime = filledAt`) and any query time in scope, the
interpolation branch (the only one that divides) is never taken — the
result extrapolates at rate exactly `S.balance` and no division by zero
is performed. -/
theorem zero_length_window_guard (s : BalanceSnapshot) (prev : Option BalanceSnapshot)
    (t : Int) (hw : s.lastUpdateTime = s.filledAt) (ht : s.filledAt ≤ t) :
    getCumulativeAt t s prev
      = some (s.cumulativeBalanceSeconds + s.balance * (t - s.filledAt)) ∧
    ¬ t < s.lastUpdateTime := by
  have h1 : s.lastUpdateTime ≤ t := by omega
  constructor
  · unfold getCumulativeAt
    rw [if_pos h1, hw]
  · omega

/-- C5 witness: a snapshot touched exactly once, queried after its only
sample. -/
theorem zero_length_window_guard_witness :
    getCumulativeAt 25
        { filledAt := 10, balance := 7, cumulativeBalanceSeconds := 100, lastUpdateTime := 10 }
        none
      = some (100 + 7 * ((25 : Int) - 10)) ∧
    ¬ (25 : Int) < 10 :=
  zero_length_window_guard _ none 25 (by decide) (by decide)

/-! ## C6 — query range rejection -/

/-- C6 counterexample: with `t1 = 2 > t2 = 1` (so `t1 ≥ t2`), the
documented computation returns the numeric value `some 5` instead of
rejecting the query. -/
theorem averageBalance_accepts_reversed_range :
    averageBalance 2 1
        { filledAt := 0, balance := 5, cumulativeBalanceSeconds := 0, lastUpdateTime := 0 } none
        { filledAt := 0, balance := 5, cumulativeBalanceSeconds := 0, lastUpdateTime := 0 } none
      = some 5 ∧ (2 : Int) ≥ 1 := by decide

/-- C6 amended: the code contains no `t1 < t2` check; an error occurs
exactly in the degenerate case `t1 = t2` (BigInt division by zero).  For
`t1 > t2` the computation returns a numeric value, so `t1 < t2` is an
unenforced caller precondition. -/
theorem averageBalance_errors_on_equal_endpoints (t1 t2 : Int)
    (s1 : BalanceSnapshot) (p1 : Option BalanceSnapshot)
    (s2 : BalanceSnapshot) (p2 : Option BalanceSnapshot) (h : t1 = t2) :
    averageBalance t1 t2 s1 p1 s2 p2 = none := by
  subst h
  rcases h1 : getCumulativeAt t1 s1 p1 with _ | c1 <;>
    rcases h2 : getCumulativeAt t1 s2 p2 with _ | c2 <;>
      simp [averageBalance, h1, h2]

/-- C6 amended-theorem witness. -/
theorem averageBalance_errors_on_equal_endpoints_witness :
    averageBalance 5 5
        { filledAt := 0, balance := 5, cumulativeBalanceSeconds := 0, lastUpdateTime := 0 } none
        { filledAt := 0, balance := 5, cumulativeBalanceSeconds := 0, lastUpdateTime := 0 } none
      = none :=
  averageBalance_errors_on_equal_endpoints 5 5 _ none _ none rfl

/-! ## C7 — monotonicity -/

/-- C7.  Monotonicity: extending a non-empty history by one more event
whose timestamp respects the non-decreasing delivery contract never
decreases the account's `cumulativeBalanceSeconds` or
`lastObservationTime`. -/
theorem cumulative_and_lastObs_monotone (evs : List BalanceEvent) (ev : BalanceEvent)
    (hne : evs ≠ []) (hsort : sortedTimes (evs ++ [ev]) = true) :
    cumOf (processHistory evs) ≤ cumOf (processHistory (evs ++ [ev])) ∧
    lastObsOf (processHistory evs) ≤ lastObsOf (processHistory (evs ++ [ev])) := by
  cases evs with
  | nil => exact absurd rfl hne
  | cons e r =>
      rw [List.cons_append] at hsort ⊢
      rw [processHistory_cons, processHistory_cons]
      rw [sortedTimes] at hsort
      have hb₀ : 0 ≤ (processBalanceChange none e).storeBalance.lastKnownBalance := by
        have hbal := applyBalanceChange_bal
          { storeBalance := initialStoreBalance e.timestamp, snapshots := fun _ => none } e
        have hd : processBalanceChange none e
            = applyBalanceChange
                { storeBalance := initialStoreBalance e.timestamp, snapshots := fun _ => none } e := rfl
        rw [hd, hbal]
        exact stepBalance_nonneg 0 e (le_refl 0)
      have hchain : chainFrom
          (processBalanceChange none e).storeBalance.lastObservationTime (r ++ [ev]) = true := by
        have hd : processBalanceChange none e
            = applyBalanceChange
                { storeBalance := initialStoreBalance e.timestamp, snapshots := fun _ => none } e := rfl
        rw [hd, applyBalanceChange_lastObs]
        exact hsort
      obtain ⟨h1, h2, h3, h4⟩ := fold_mono r [ev] (processBalanceChange none e) hb₀ hchain
      rw [chainFrom, Bool.and_eq_true, decide_eq_true_eq] at h4
      have hfold : (r ++ [ev]).foldl applyBalanceChange (processBalanceChange none e)
          = applyBalanceChange (r.foldl applyBalanceChange (processBalanceChange none e)) ev := by
        rw [List.foldl_append, List.foldl_cons, List.foldl_nil]
      constructor
      · show (r.foldl applyBalanceChange (processBalanceChange none e)).storeBalance.cumulativeBalanceSeconds
          ≤ ((r ++ [ev]).foldl applyBalanceChange (processBalanceChange none e)).storeBalance.cumulativeBalanceSeconds
        rw [hfold, applyBalanceChange_cum]
        have hmul : 0 ≤ (r.foldl applyBalanceChange (processBalanceChange none e)).storeBalance.lastKnownBalance
            * (ev.timestamp
              - (r.foldl applyBalanceChange (processBalanceChange none e)).storeBalance.lastObservationTime) :=
          mul_nonneg h3 (sub_nonneg.mpr h4.1)
        linarith
      · show (r.foldl applyBalanceChange (processBalanceChange none e)).storeBalance.lastObservationTime
          ≤ ((r ++ [ev]).foldl applyBalanceChange (processBalanceChange none e)).storeBalance.lastObservationTime
        rw [hfold, applyBalanceChange_lastObs]
        exact h4.1

/-- C7 witness: a concrete history and its one-event extension. -/
theorem cumulative_and_lastObs_monotone_witness :
    cumOf (processHistory
      [{ timestamp := 1000, amount := 4, isDeposit := true }])
      ≤ cumOf (processHistory
          ([{ timestamp := 1000, amount := 4, isDeposit := true }]
            ++ [{ timestamp := 2000, amount := 9, isDeposit := false }])) ∧
    lastObsOf (processHistory
      [{ timestamp := 1000, amount := 4, isDeposit := true }])
      ≤ lastObsOf (processHistory
          ([{ timestamp := 1000, amount := 4, isDeposit := true }]
            ++ [{ timestamp := 2000, amount := 9, isDeposit := false }])) :=
  cumulative_and_lastObs_monotone _ _ (by decide) (by decide)

/-! ## C8 — closed snapshots are immutable -/

/-- C8.  Frame property of one event application: every snapshot other
than the one with the (post-event) highest sequence is left exactly as it
was — so closed snapshots (sequence < snapshot count) are immutable and
never deleted — the snapshot count never decreases, and after the event
the open (highest-sequence) snapshot exists. -/
theorem closed_snapshots_immutable (acc : AccountState) (ev : BalanceEvent) (m : Nat)
    (hm : m ≠ (processBalanceChange (some acc) ev).storeBalance.totalSnapshotCount) :
    (processBalanceChange (some acc) ev).snapshots m = acc.snapshots m ∧
    acc.storeBalance.totalSnapshotCount
      ≤ (processBalanceChange (some acc) ev).storeBalance.totalSnapshotCount ∧
    ((processBalanceChange (some acc) ev).snapshots
        (processBalanceChange (some acc) ev).storeBalance.totalSnapshotCount).isSome = true := by
  have hd : processBalanceChange (some acc) ev = applyBalanceChange acc ev := rfl
  rw [hd] at hm ⊢
  rcases hc : currentSnapshot (updateStoreBalance acc.storeBalance ev) acc.snapshots ev.timestamp
    with _ | s
  · obtain ⟨h1, h2⟩ := applyBalanceChange_new acc ev hc
    rw [h1] at hm
    refine ⟨?_, ?_, ?_⟩
    · rw [h2]
      exact if_neg hm
    · rw [h1]
      exact Nat.le_succ _
    · rw [h1, h2]
      simp
  · obtain ⟨h1, h2⟩ := applyBalanceChange_update acc ev s hc
    rw [h1] at hm
    refine ⟨?_, ?_, ?_⟩
    · rw [h2]
      exact if_neg hm
    · rw [h1]
    · rw [h1, h2]
      simp

/-- C8 witness at a concrete account with one open snapshot, an event
inside the lifetime, and an untouched sequence number. -/
theorem closed_snapshots_immutable_witness :
    (processBalanceChange
        (some { storeBalance :=
                  { lastKnownBalance := 10
                    lastObservationTime := 100
                    cumulativeBalanceSeconds := 0
                    totalSnapshotCount := 1 }
                snapshots := fun n =>
                  if n = 1 then
                    some { filledAt := 100, balance := 10
                           cumulativeBalanceSeconds := 0, lastUpdateTime := 100 }
                  else none })
        { timestamp := 200, amount := 5, isDeposit := true }).snapshots 5
      = (fun n : Nat =>
          if n = 1 then
            some { filledAt := 100, balance := 10
                   cumulativeBalanceSeconds := 0, lastUpdateTime := 100 }
          else none) 5 ∧
    1 ≤ (processBalanceChange
        (some { storeBalance :=
                  { lastKnownBalance := 10
                    lastObservationTime := 100
                    cumulativeBalanceSeconds := 0
                    totalSnapshotCount := 1 }
                snapshots := fun n =>
                  if n = 1 then
                    some { filledAt := 100, balance := 10
                           cumulativeBalanceSeconds := 0, lastUpdateTime := 100 }
                  else none })
        { timestamp := 200, amount := 5, isDeposit := true }).storeBalance.totalSnapshotCount ∧
    ((processBalanceChange
        (some { storeBalance :=
                  { lastKnownBalance := 10
                    lastObservationTime := 100
                    cumulativeBalanceSeconds := 0
                    totalSnapshotCount := 1 }
                snapshots := fun n =>
                  if n = 1 then
                    some { filledAt := 100, balance := 10
                           cumulativeBalanceSeconds := 0, lastUpdateTime := 100 }
                  else none })
        { timestamp := 200, amount := 5, isDeposit := true }).snapshots
      (processBalanceChange
        (some { storeBalance :=
                  { lastKnownBalance := 10
                    lastObservationTime := 100
                    cumulativeBalanceSeconds := 0
                    totalSnapshotCount := 1 }
                snapshots := fun n =>
                  if n = 1 then
                    some { filledAt := 100, balance := 10
                           cumulativeBalanceSeconds := 0, lastUpdateTime := 100 }
                  else none })
        { timestamp := 200, amount := 5, isDeposit := true }).storeBalance.totalSnapshotCount).isSome
      = true :=
  closed_snapshots_immutable _ _ 5 (by decide)

/-! ## C9 — query entirely before the first event -/

/-- C9 counterexample: with a single snapshot filled at `t = 100`, a
cumulative query at `t = 50` and an average query over `[10, 20]` (both
entirely before the account's first event) produce an error (`none`),
not `0`. -/
theorem empty_history_query_errors :
    cumulativeAtQuery
        [{ filledAt := 100, balance := 5, cumulativeBalanceSeconds := 0, lastUpdateTime := 100 }]
        50 = none ∧
    ¬ cumulativeAtQuery
        [{ filledAt := 100, balance := 5, cumulativeBalanceSeconds := 0, lastUpdateTime := 100 }]
        50 = some 0 ∧
    averageBalanceQuery
        [{ filledAt := 100, balance := 5, cumulativeBalanceSeconds := 0, lastUpdateTime := 100 }]
        10 20 = none ∧
    ¬ averageBalanceQuery
        [{ filledAt := 100, balance := 5, cumulativeBalanceSeconds := 0, lastUpdateTime := 100 }]
        10 20 = some 0 := by decide

/-- C9 amended: whenever no snapshot with `filledAt ≤ t` exists, the
documented query pattern yields an error (`none`) — the "defined as 0"
special case exists only in the spec, not in the code. -/
theorem cumulativeAtQuery_none_before_first_event (snaps : List BalanceSnapshot) (t : Int)
    (h : ∀ s ∈ snaps, ¬ s.filledAt ≤ t) :
    cumulativeAtQuery snaps t = none := by
  have hf : snaps.filter (fun s => decide (s.filledAt ≤ t)) = [] := by
    simp only [List.filter_eq_nil_iff, decide_eq_true_eq]
    exact h
  unfold cumulativeAtQuery selectBracketing
  rw [hf]
  rfl

/-- C9 amended-theorem witness. -/
theorem cumulativeAtQuery_none_before_first_event_witness :
    cumulativeAtQuery
        [{ filledAt := 100, balance := 5, cumulativeBalanceSeconds := 0, lastUpdateTime := 100 }]
        99 = none :=
  cumulativeAtQuery_none_before_first_event _ 99 (by decide)

/-! ## C10 — non-tracked events are ledger no-ops -/

/-- C10.  Frame property of non-tracked events: the handler leaves the
`StoreBalance`, `BalanceSnapshot`, `Transaction`, `FungibleAssetStats`
and `Vault` tables untouched, changes the metadata cache at most at the
event's own store address, and — when the view call fails — persists
nothing at all. -/
theorem nontracked_event_is_ledger_noop (st : EntityStore) (storeAddress : String)
    (amount : Nat) (isDeposit : Bool) (timestamp : Int) (viewResult : Option String)
    (signer : String) (version eventIndex : Nat)
    (h : nonTrackedOutcome st storeAddress viewResult) :
    (processBalanceChangeHandler st storeAddress amount isDeposit timestamp viewResult
        signer version eventIndex).storeBalances = st.storeBalances ∧
    (processBalanceChangeHandler st storeAddress amount isDeposit timestamp viewResult
        signer version eventIndex).snapshots = st.snapshots ∧
    (processBalanceChangeHandler st storeAddress amount isDeposit timestamp viewResult
        signer version eventIndex).transactions = st.transactions ∧
    (processBalanceChangeHandler st storeAddress amount isDeposit timestamp viewResult
        signer version eventIndex).stats = st.stats ∧
    (processBalanceChangeHandler st storeAddress amount isDeposit timestamp viewResult
        signer version eventIndex).vaultsByMetadata = st.vaultsByMetadata ∧
    (fun a => if a = storeAddress then (none : Option StoreMetadataCache)
      else (processBalanceChangeHandler st storeAddress amount isDeposit timestamp viewResult
        signer version eventIndex).metadataCache a)
      = (fun a => if a = storeAddress then none else st.metadataCache a) ∧
    (viewResult = none →
      processBalanceChangeHandler st storeAddress amount isDeposit timestamp viewResult
        signer version eventIndex = st) := by
  unfold nonTrackedOutcome at h
  unfold processBalanceChangeHandler
  rcases hmc : st.metadataCache storeAddress with _ | e
  · rcases hv : viewResult with _ | m
    · rw [hmc] at h
      exact ⟨rfl, rfl, rfl, rfl, rfl, rfl, fun _ => rfl⟩
    · rw [hmc, hv] at h
      dsimp only at h ⊢
      rw [h]
      dsimp only [List.isEmpty_nil, Bool.not_true]
      refine ⟨rfl, rfl, rfl, rfl, rfl, ?_, ?_⟩
      · funext a
        by_cases ha : a = storeAddress <;> simp [ha]
      · intro hcontra
        exact absurd hcontra (by simp)
  · rw [hmc] at h
    dsimp only at h ⊢
    rw [h]
    exact ⟨rfl, rfl, rfl, rfl, rfl, rfl, fun _ => rfl⟩

/-- C10 witness: an empty store, a cache miss, and a resolved metadata
address matching no vault. -/
theorem nontracked_event_is_ledger_noop_witness :
    (processBalanceChangeHandler
        { metadataCache := fun _ => none
          storeBalances := fun _ => none
          snapshots := fun _ _ => none
          transactions := fun _ => none
          stats := none
          vaultsByMetadata := fun _ => [] }
        "store1" 1000 true 77 (some "meta1") "alice" 9 0).storeBalances
      = (fun _ => none) ∧
    (processBalanceChangeHandler
        { metadataCache := fun _ => none
          storeBalances := fun _ => none
          snapshots := fun _ _ => none
          transactions := fun _ => none
          stats := none
          vaultsByMetadata := fun _ => [] }
        "store1" 1000 true 77 (some "meta1") "alice" 9 0).stats = none :=
  (fun hfull => ⟨hfull.1, hfull.2.2.2.1⟩)
    (nontracked_event_is_ledger_noop
      { metadataCache := fun _ => none
        storeBalances := fun _ => none
        snapshots := fun _ _ => none
        transactions := fun _ => none
        stats := none
        vaultsByMetadata := fun _ => [] }
      "store1" 1000 true 77 (some "meta1") "alice" 9 0 (by constructor))
